import Mathlib

/-!
Verification of `verify/verify_orbits.py`: an orbital-mechanics checker that
holds a hardcoded table of eight planets, computes each body's orbital period
(Kepler's third law) and circular orbital velocity, compares them to reference
values with a 2% percent-error threshold, reports orbital distances in AU and a
summary, and exits 0 iff every period and velocity check passed.

The embedding is shallow: Python float arithmetic is modelled by exact real
arithmetic (table entries and constants are decimal literals, hence rationals;
`math.sqrt` is `Real.sqrt`, `math.pi` is `Real.pi`).  The global table and
constants are Lean constants; the loops of the two verify functions are
modelled by a recursion over the table threading the `all_passed` accumulator
exactly as the source mutates it.
-/

namespace VerifyOrbits

/-- Physical constant `G = 6.674e-11` (m³/kg/s²), from the source. -/
def G : ℚ := 6.674e-11

/-- Physical constant `M_SUN = 1.989e30` (kg), from the source. -/
def M_SUN : ℚ := 1.989e30

/-- Physical constant `AU = 149597870700.0` (m), from the source. -/
def AU : ℚ := 149597870700

/-- One entry of the `PLANETS` dict: the per-body record with the six keys
used by the script (`orbit_radius`, `orbital_velocity`, `expected_period_days`,
`inclination`, `radius`, `mass`). -/
structure CelestialBody where
  orbit_radius : ℚ
  orbital_velocity : ℚ
  expected_period_days : ℕ
  inclination : ℚ
  radius : ℚ
  mass : ℚ
deriving DecidableEq, Repr

/-- The `'Mercury'` entry of `PLANETS`. -/
def mercury : CelestialBody :=
  { orbit_radius := 57909050000, orbital_velocity := 47362, expected_period_days := 88,
    inclination := 7.005, radius := 2439700, mass := 3.3011e23 }

/-- The `'Venus'` entry of `PLANETS`. -/
def venus : CelestialBody :=
  { orbit_radius := 108208000000, orbital_velocity := 35020, expected_period_days := 225,
    inclination := 3.395, radius := 6051800, mass := 4.8675e24 }

/-- The `'Earth'` entry of `PLANETS`. -/
def earth : CelestialBody :=
  { orbit_radius := 149597870700, orbital_velocity := 29780, expected_period_days := 365,
    inclination := 0, radius := 6371000, mass := 5.972e24 }

/-- The `'Mars'` entry of `PLANETS`. -/
def mars : CelestialBody :=
  { orbit_radius := 227939200000, orbital_velocity := 24077, expected_period_days := 687,
    inclination := 1.850, radius := 3389500, mass := 6.4171e23 }

/-- The `'Jupiter'` entry of `PLANETS` (`orbit_radius = 778.57e9`). -/
def jupiter : CelestialBody :=
  { orbit_radius := 778.57e9, orbital_velocity := 13070, expected_period_days := 4333,
    inclination := 1.303, radius := 69911000, mass := 1.8982e27 }

/-- The `'Saturn'` entry of `PLANETS` (`orbit_radius = 1433.53e9`). -/
def saturn : CelestialBody :=
  { orbit_radius := 1433.53e9, orbital_velocity := 9680, expected_period_days := 10759,
    inclination := 2.485, radius := 58232000, mass := 5.6834e26 }

/-- The `'Uranus'` entry of `PLANETS` (`orbit_radius = 2872.46e9`). -/
def uranus : CelestialBody :=
  { orbit_radius := 2872.46e9, orbital_velocity := 6800, expected_period_days := 30687,
    inclination := 0.773, radius := 25362000, mass := 8.6810e25 }

/-- The `'Neptune'` entry of `PLANETS` (`orbit_radius = 4495.06e9`). -/
def neptune : CelestialBody :=
  { orbit_radius := 4495.06e9, orbital_velocity := 5430, expected_period_days := 60190,
    inclination := 1.770, radius := 24622000, mass := 1.02413e26 }

/-- The hardcoded `PLANETS` table, in source order. -/
def PLANETS : List (String × CelestialBody) :=
  [ ("Mercury", mercury), ("Venus", venus), ("Earth", earth), ("Mars", mars),
    ("Jupiter", jupiter), ("Saturn", saturn), ("Uranus", uranus), ("Neptune", neptune) ]

/-- `calculate_orbital_period`, generalised over the two global constants it
reads (for the state-passing layer): `T = 2π·sqrt(a³/(g·m))` seconds,
divided by `24*3600` to convert to days. -/
noncomputable def kepler_period_g (g m a : ℝ) : ℝ :=
  2 * Real.pi * Real.sqrt (a ^ 3 / (g * m)) / (24 * 3600)

/-- `calculate_orbital_velocity`, generalised over the constants:
`v = sqrt(g·m / a)`. -/
noncomputable def circular_velocity_g (g m a : ℝ) : ℝ :=
  Real.sqrt (g * m / a)

/-- `calculate_orbital_period(semi_major_axis_m)` from the source, reading the
global constants `G` and `M_SUN`. -/
noncomputable def calculate_orbital_period (a : ℝ) : ℝ :=
  kepler_period_g (G : ℝ) (M_SUN : ℝ) a

/-- `calculate_orbital_velocity(semi_major_axis_m)` from the source. -/
noncomputable def calculate_orbital_velocity (a : ℝ) : ℝ :=
  circular_velocity_g (G : ℝ) (M_SUN : ℝ) a

/-- The percent error computed in the body of `verify_orbital_periods`,
generalised over the constants:
`abs(calculated - expected) / expected * 100`. -/
noncomputable def period_error_g (g m : ℚ) (b : CelestialBody) : ℝ :=
  |kepler_period_g (g : ℝ) (m : ℝ) (b.orbit_radius : ℝ) - (b.expected_period_days : ℝ)| /
    (b.expected_period_days : ℝ) * 100

/-- The percent error computed in the body of `verify_orbital_velocities`. -/
noncomputable def velocity_error_g (g m : ℚ) (b : CelestialBody) : ℝ :=
  |circular_velocity_g (g : ℝ) (m : ℝ) (b.orbit_radius : ℝ) - (b.orbital_velocity : ℝ)| /
    (b.orbital_velocity : ℝ) * 100

/-- Per-body percent error of the period check against the global constants. -/
noncomputable def period_error : CelestialBody → ℝ := period_error_g G M_SUN

/-- Per-body percent error of the velocity check against the global constants. -/
noncomputable def velocity_error : CelestialBody → ℝ := velocity_error_g G M_SUN

open Classical in
/-- The per-row status string: `"PASS" if error < 2.0 else "FAIL"`
(the checkmark decoration of the source is dropped, as the spec allows). -/
noncomputable def status_of (error : ℝ) : String :=
  if error < 2 then "PASS" else "FAIL"

open Classical in
/-- The loop of `verify_orbital_periods` / `verify_orbital_velocities`
threading `all_passed`: for each row, `if error >= 2.0: all_passed = False`.
`err` is the per-body error expression of the respective function. -/
noncomputable def all_rows_pass (err : CelestialBody → ℝ) :
    List (String × CelestialBody) → Prop → Prop
  | [], all_passed => all_passed
  | p :: rest, all_passed =>
      all_rows_pass err rest (if 2 ≤ err p.2 then False else all_passed)

/-- `verify_orbital_periods()`: its boolean result. -/
noncomputable def verify_orbital_periods : Prop :=
  all_rows_pass period_error PLANETS True

/-- `verify_orbital_velocities()`: its boolean result. -/
noncomputable def verify_orbital_velocities : Prop :=
  all_rows_pass velocity_error PLANETS True

/-- The hardcoded `expected_au` reference table of `verify_orbit_distances`. -/
def expected_au : List (String × ℚ) :=
  [ ("Mercury", 0.387), ("Venus", 0.723), ("Earth", 1.000), ("Mars", 1.524),
    ("Jupiter", 5.204), ("Saturn", 9.583), ("Uranus", 19.19), ("Neptune", 30.07) ]

/-- `tbl.get(name, 0)`: dictionary lookup with default 0, as in
`expected_au.get(name, 0)`. -/
def dict_get_default (tbl : List (String × ℚ)) (name : String) : ℚ :=
  ((tbl.find? (fun q => q.1 == name)).map Prod.snd).getD 0

/-- The rows printed by `verify_orbit_distances`, against an arbitrary
reference table standing for `expected_au`:
`(name, orbit_radius, orbit_radius / AU, expected)`. -/
def distance_rows_with (tbl : List (String × ℚ))
    (planets : List (String × CelestialBody)) (au : ℚ) :
    List (String × ℚ × ℚ × ℚ) :=
  planets.map (fun p => (p.1, p.2.orbit_radius, p.2.orbit_radius / au, dict_get_default tbl p.1))

/-- `verify_orbit_distances()`: the data of the rows it prints. -/
def verify_orbit_distances_rows : List (String × ℚ × ℚ × ℚ) :=
  distance_rows_with expected_au PLANETS AU

/-- `print_summary()`: the data of the rows it prints:
`(name, radius/1000, mass, orbit_radius / AU, inclination)`. -/
def print_summary_rows : List (String × ℚ × ℚ × ℚ × ℚ) :=
  PLANETS.map (fun p => (p.1, p.2.radius / 1000, p.2.mass, p.2.orbit_radius / AU, p.2.inclination))

open Classical in
/-- The exit code of `main()`: `0` if `period_ok and velocity_ok` else `1`. -/
noncomputable def main_exit : ℕ :=
  if verify_orbital_periods ∧ verify_orbital_velocities then 0 else 1

/-! ### State-passing layer

The Python functions read module-level globals (`PLANETS`, `G`, `M_SUN`, `AU`)
and never assign to them.  To state the frame property we model the globals as
an explicit state threaded through each operation. -/

/-- The module-level mutable environment: the planet table and the three
physical constants. -/
structure ProgState where
  planets : List (String × CelestialBody)
  g : ℚ
  m_sun : ℚ
  au : ℚ
deriving DecidableEq

/-- The globals as initialised at import time. -/
def init_state : ProgState := ⟨PLANETS, G, M_SUN, AU⟩

/-- `verify_orbital_periods` as a state transformer: reads the globals,
returns its boolean and the (unmodified, since the source contains no global
assignment) state. -/
noncomputable def run_verify_periods (s : ProgState) : Prop × ProgState :=
  (all_rows_pass (period_error_g s.g s.m_sun) s.planets True, s)

/-- `verify_orbital_velocities` as a state transformer. -/
noncomputable def run_verify_velocities (s : ProgState) : Prop × ProgState :=
  (all_rows_pass (velocity_error_g s.g s.m_sun) s.planets True, s)

/-- `verify_orbit_distances` as a state transformer, generalised over the
`expected_au` literal it closes over. -/
def run_report_distances_with (tbl : List (String × ℚ)) (s : ProgState) :
    List (String × ℚ × ℚ × ℚ) × ProgState :=
  (distance_rows_with tbl s.planets s.au, s)

/-- `verify_orbit_distances` as a state transformer. -/
def run_report_distances (s : ProgState) : List (String × ℚ × ℚ × ℚ) × ProgState :=
  run_report_distances_with expected_au s

/-- `print_summary` as a state transformer. -/
def run_print_summary (s : ProgState) :
    List (String × ℚ × ℚ × ℚ × ℚ) × ProgState :=
  (s.planets.map (fun p =>
    (p.1, p.2.radius / 1000, p.2.mass, p.2.orbit_radius / s.au, p.2.inclination)), s)

open Classical in
/-- `main()` as a state transformer, generalised over the `expected_au`
table: runs the four report functions in source order and returns the exit
code. -/
noncomputable def run_main_with (tbl : List (String × ℚ)) (s : ProgState) : ℕ × ProgState :=
  let pr := run_verify_periods s
  let ve := run_verify_velocities pr.2
  let di := run_report_distances_with tbl ve.2
  let su := run_print_summary di.2
  (if pr.1 ∧ ve.1 then 0 else 1, su.2)

/-- `main()` as a state transformer. -/
noncomputable def run_main (s : ProgState) : ℕ × ProgState :=
  run_main_with expected_au s

/-- The spec's formula for `orbitalPeriodDays` (claim C4's right-hand side):
`2π·sqrt(a³/(G·M_sun))` seconds divided by `86400`, with `G = 6.674e-11` and
`M_sun = 1.989e30` written as literals as in the spec. -/
noncomputable def spec_orbitalPeriodDays (a : ℝ) : ℝ :=
  2 * Real.pi * Real.sqrt (a ^ 3 / ((6.674e-11 : ℝ) * (1.989e30 : ℝ))) / 86400

/-- The spec's formula for `circularVelocityMS` (claim C5's right-hand side):
`sqrt(G·M_sun / a)`. -/
noncomputable def spec_circularVelocityMS (a : ℝ) : ℝ :=
  Real.sqrt ((6.674e-11 : ℝ) * (1.989e30 : ℝ) / a)

/-! ### Helper lemmas -/

/-- Strict two-sided bounds on the computed period through rational bounds on
the square root and the first six decimals of `π`. -/
lemma period_bounds (g m a lo hi : ℝ) (hlo : 0 < lo) (hhi : 0 < hi)
    (h1 : lo ^ 2 ≤ a ^ 3 / (g * m)) (h2 : a ^ 3 / (g * m) ≤ hi ^ 2) :
    2 * 3.141592 * lo / 86400 < kepler_period_g g m a ∧
      kepler_period_g g m a < 2 * 3.141593 * hi / 86400 := by
  have hπl := Real.pi_gt_d6
  have hπu := Real.pi_lt_d6
  set s := Real.sqrt (a ^ 3 / (g * m)) with hs
  have hsl : lo ≤ s := by
    calc lo = Real.sqrt (lo ^ 2) := (Real.sqrt_sq hlo.le).symm
      _ ≤ s := Real.sqrt_le_sqrt h1
  have hsu : s ≤ hi := by
    calc s ≤ Real.sqrt (hi ^ 2) := Real.sqrt_le_sqrt h2
      _ = hi := Real.sqrt_sq hhi.le
  have hs0 : 0 < s := lt_of_lt_of_le hlo hsl
  constructor
  · have h5 : 3.141592 * lo < Real.pi * s := by nlinarith
    rw [kepler_period_g]
    rw [show ((24 : ℝ) * 3600) = 86400 by norm_num]
    rw [div_lt_div_iff₀ (by norm_num) (by norm_num)]
    nlinarith
  · have h6 : Real.pi * s < 3.141593 * hi := by nlinarith
    rw [kepler_period_g]
    rw [show ((24 : ℝ) * 3600) = 86400 by norm_num]
    rw [div_lt_div_iff₀ (by norm_num) (by norm_num)]
    nlinarith

/-- Two-sided bounds on the computed velocity through rational bounds on the
square root. -/
lemma velocity_bounds (g m a lo hi : ℝ) (hlo : 0 ≤ lo) (hhi : 0 ≤ hi)
    (h1 : lo ^ 2 ≤ g * m / a) (h2 : g * m / a ≤ hi ^ 2) :
    lo ≤ circular_velocity_g g m a ∧ circular_velocity_g g m a ≤ hi := by
  rw [circular_velocity_g]
  constructor
  · calc lo = Real.sqrt (lo ^ 2) := (Real.sqrt_sq hlo).symm
      _ ≤ Real.sqrt (g * m / a) := Real.sqrt_le_sqrt h1
  · calc Real.sqrt (g * m / a) ≤ Real.sqrt (hi ^ 2) := Real.sqrt_le_sqrt h2
      _ = hi := Real.sqrt_sq hhi

/-- A body's period percent error is below 2 whenever a rational interval
`[lo, hi]` around the square root places the computed period inside
`(0.98·E, 1.02·E)`. -/
lemma period_error_lt_two (b : CelestialBody) (lo hi : ℝ) (hlo : 0 < lo) (hhi : 0 < hi)
    (h1 : lo ^ 2 ≤ (b.orbit_radius : ℝ) ^ 3 / ((G : ℝ) * (M_SUN : ℝ)))
    (h2 : (b.orbit_radius : ℝ) ^ 3 / ((G : ℝ) * (M_SUN : ℝ)) ≤ hi ^ 2)
    (hE : 0 < (b.expected_period_days : ℝ))
    (h3 : 98 / 100 * (b.expected_period_days : ℝ) ≤ 2 * 3.141592 * lo / 86400)
    (h4 : 2 * 3.141593 * hi / 86400 ≤ 102 / 100 * (b.expected_period_days : ℝ)) :
    period_error b < 2 := by
  obtain ⟨hTl, hTu⟩ :=
    period_bounds (G : ℝ) (M_SUN : ℝ) (b.orbit_radius : ℝ) lo hi hlo hhi h1 h2
  set T := kepler_period_g (G : ℝ) (M_SUN : ℝ) (b.orbit_radius : ℝ) with hT
  set E := (b.expected_period_days : ℝ) with hE2
  have habs : |T - E| < 2 / 100 * E := by
    rw [abs_lt]
    constructor <;> nlinarith
  show |T - E| / E * 100 < 2
  rw [div_mul_eq_mul_div, div_lt_iff₀ hE]
  nlinarith

/-- A body's velocity percent error is below 2 whenever a rational interval
`[lo, hi]` around the square root lies inside `(0.98·v, 1.02·v)`. -/
lemma velocity_error_lt_two (b : CelestialBody) (lo hi : ℝ) (hlo : 0 ≤ lo) (hhi : 0 ≤ hi)
    (h1 : lo ^ 2 ≤ (G : ℝ) * (M_SUN : ℝ) / (b.orbit_radius : ℝ))
    (h2 : (G : ℝ) * (M_SUN : ℝ) / (b.orbit_radius : ℝ) ≤ hi ^ 2)
    (hv : 0 < (b.orbital_velocity : ℝ))
    (h3 : 98 / 100 * (b.orbital_velocity : ℝ) < lo)
    (h4 : hi < 102 / 100 * (b.orbital_velocity : ℝ)) :
    velocity_error b < 2 := by
  obtain ⟨hVl, hVu⟩ :=
    velocity_bounds (G : ℝ) (M_SUN : ℝ) (b.orbit_radius : ℝ) lo hi hlo hhi h1 h2
  set V := circular_velocity_g (G : ℝ) (M_SUN : ℝ) (b.orbit_radius : ℝ) with hV
  set v := (b.orbital_velocity : ℝ) with hv2
  have habs : |V - v| < 2 / 100 * v := by
    rw [abs_lt]
    constructor <;> nlinarith
  show |V - v| / v * 100 < 2
  rw [div_mul_eq_mul_div, div_lt_iff₀ hv]
  nlinarith

/-- The `all_passed` loop returns its accumulator conjoined with every row's
error being strictly below 2. -/
lemma all_rows_pass_iff (err : CelestialBody → ℝ) :
    ∀ (l : List (String × CelestialBody)) (acc : Prop),
      all_rows_pass err l acc ↔ (acc ∧ ∀ p ∈ l, err p.2 < 2) := by
  intro l
  induction l with
  | nil => intro acc; simp [all_rows_pass]
  | cons p rest ih =>
    intro acc
    rw [all_rows_pass, ih]
    by_cases h : 2 ≤ err p.2
    · simp only [if_pos h, List.forall_mem_cons, not_lt.mpr h]
      tauto
    · simp only [if_neg h, List.forall_mem_cons]
      have h2 : err p.2 < 2 := not_le.mp h
      tauto

/-! ### Claims -/

/-- C2: `verify_orbital_periods` (and analogously `verify_orbital_velocities`)
is true iff every body of the table it walks has percent error strictly less
than 2.0 — stated both for an arbitrary table and for the hardcoded
`PLANETS` — and the row status for an error of exactly 2.0 is `"FAIL"`. -/
theorem c2_verify_iff_all_below_threshold :
    (∀ table : List (String × CelestialBody),
        all_rows_pass period_error table True ↔ ∀ p ∈ table, period_error p.2 < 2) ∧
    (∀ table : List (String × CelestialBody),
        all_rows_pass velocity_error table True ↔ ∀ p ∈ table, velocity_error p.2 < 2) ∧
    (verify_orbital_periods ↔ ∀ p ∈ PLANETS, period_error p.2 < 2) ∧
    (verify_orbital_velocities ↔ ∀ p ∈ PLANETS, velocity_error p.2 < 2) ∧
    status_of 2 = "FAIL" := by
  have hp : ∀ table : List (String × CelestialBody),
      all_rows_pass period_error table True ↔ ∀ p ∈ table, period_error p.2 < 2 := by
    intro table
    rw [all_rows_pass_iff]
    simp
  have hv : ∀ table : List (String × CelestialBody),
      all_rows_pass velocity_error table True ↔ ∀ p ∈ table, velocity_error p.2 < 2 := by
    intro table
    rw [all_rows_pass_iff]
    simp
  refine ⟨hp, hv, hp PLANETS, hv PLANETS, ?_⟩
  rw [status_of, if_neg (lt_irrefl (2 : ℝ))]

/-- C3: `main` returns exit code 0 iff both the period check and the velocity
check return true, and 1 otherwise; the expected-AU table used by the distance
report (and the summary) never affects the exit code. -/
theorem c3_exit_code :
    (main_exit = 0 ↔ (verify_orbital_periods ∧ verify_orbital_velocities)) ∧
    (main_exit = 1 ↔ ¬(verify_orbital_periods ∧ verify_orbital_velocities)) ∧
    (∀ (tbl : List (String × ℚ)) (s : ProgState),
        (run_main_with tbl s).1 = (run_main s).1) ∧
    (run_main init_state).1 = main_exit ∧
    (∀ p ∈ PLANETS, (2 ≤ period_error p.2 ∨ 2 ≤ velocity_error p.2) → main_exit = 1) := by
  have h0 : (main_exit = 0 ↔ (verify_orbital_periods ∧ verify_orbital_velocities)) ∧
      (main_exit = 1 ↔ ¬(verify_orbital_periods ∧ verify_orbital_velocities)) := by
    constructor <;>
      by_cases h : verify_orbital_periods ∧ verify_orbital_velocities <;>
        simp [main_exit, h]
  refine ⟨h0.1, h0.2, fun tbl s => rfl, rfl, ?_⟩
  intro p hp hge
  rw [h0.2]
  intro hboth
  rcases hge with h2 | h2
  · have hlt := ((all_rows_pass_iff period_error PLANETS True).mp hboth.1).2 p hp
    linarith
  · have hlt := ((all_rows_pass_iff velocity_error PLANETS True).mp hboth.2).2 p hp
    linarith

/-- C7: the program always completes: the exit code is a defined value in
`{0, 1}` (a threshold miss only flips it to 1, it is never an error), and the
distance and summary reports produce their full eight rows. -/
theorem c7_total_and_exit_defined :
    (main_exit = 0 ∨ main_exit = 1) ∧
      verify_orbit_distances_rows.length = 8 ∧ print_summary_rows.length = 8 := by
  refine ⟨?_, rfl, rfl⟩
  by_cases h : verify_orbital_periods ∧ verify_orbital_velocities
  · exact Or.inl (by simp [main_exit, h])
  · exact Or.inr (by simp [main_exit, h])

/-- C8: no operation mutates the planet table or the physical constants: each
report function and `main` return the global state they were given, any
iteration of `main` leaves the start state intact, and after a run the table
and the three constants still hold their initial values. -/
theorem c8_globals_never_mutated :
    (∀ s : ProgState, (run_verify_periods s).2 = s ∧ (run_verify_velocities s).2 = s ∧
      (run_report_distances s).2 = s ∧ (run_print_summary s).2 = s ∧ (run_main s).2 = s) ∧
    (∀ n : ℕ, (fun s => (run_main s).2)^[n] init_state = init_state) ∧
    (run_main init_state).2.planets = PLANETS ∧ (run_main init_state).2.g = G ∧
      (run_main init_state).2.m_sun = M_SUN ∧ (run_main init_state).2.au = AU := by
  refine ⟨fun s => ⟨rfl, rfl, rfl, rfl, rfl⟩, ?_, rfl, rfl, rfl, rfl⟩
  intro n
  have h : (fun s : ProgState => (run_main s).2) = id := funext fun s => rfl
  rw [h, Function.iterate_id, id]

/-- C4: for every semi-major axis `a > 0`, the source's
`calculate_orbital_period` agrees with the spec's formula
`2π·sqrt(a³/(G·M_sun))` seconds divided by 86400. -/
theorem c4_period_matches_spec (a : ℝ) (h : 0 < a) :
    calculate_orbital_period a = spec_orbitalPeriodDays a := by
  rw [calculate_orbital_period, kepler_period_g, spec_orbitalPeriodDays]
  norm_num [G, M_SUN]

/-- Witness for C4 at the concrete input `a = 1`. -/
theorem c4_witness : calculate_orbital_period 1 = spec_orbitalPeriodDays 1 :=
  c4_period_matches_spec 1 one_pos

/-- C5: for every semi-major axis `a > 0`, the source's
`calculate_orbital_velocity` agrees with the spec's formula
`sqrt(G·M_sun / a)`. -/
theorem c5_velocity_matches_spec (a : ℝ) (h : 0 < a) :
    calculate_orbital_velocity a = spec_circularVelocityMS a := by
  rw [calculate_orbital_velocity, circular_velocity_g, spec_circularVelocityMS]
  norm_num [G, M_SUN]

/-- Witness for C5 at the concrete input `a = 1`. -/
theorem c5_witness : calculate_orbital_velocity 1 = spec_circularVelocityMS 1 :=
  c5_velocity_matches_spec 1 one_pos

/-- C6: Earth's `orbit_radius` equals the `AU` constant exactly, its quotient
by `AU` is exactly 1, and the distance report's Earth row carries exactly 1
as the computed AU value (and 1.000 as the expected value). -/
theorem c6_earth_exactly_one_au :
    earth.orbit_radius = AU ∧ earth.orbit_radius / AU = 1 ∧
      ("Earth", (149597870700 : ℚ), 1, 1) ∈ verify_orbit_distances_rows := by
  have hdiv : earth.orbit_radius / AU = 1 := by norm_num [earth, AU]
  have hget : dict_get_default expected_au "Earth" = 1 := by
    simp [dict_get_default, expected_au, List.find?] <;> norm_num
  refine ⟨rfl, hdiv, ?_⟩
  simp only [verify_orbit_distances_rows, distance_rows_with, PLANETS, List.map_cons,
    List.map_nil, List.mem_cons]
  refine Or.inr (Or.inr (Or.inl ?_))
  rw [hget, hdiv]
  norm_num [earth]

/-- C9: on the hardcoded table every reference value is positive, so the
percent-error divisions of the two checks never divide by zero and the
square-root arguments of both formulas are positive (and the denominators are
nonzero as reals). -/
theorem c9_table_positive_no_zero_division :
    (PLANETS.Forall fun p => 0 < p.2.expected_period_days ∧ 0 < p.2.orbital_velocity ∧
        0 < p.2.orbit_radius) ∧
    (PLANETS.Forall fun p =>
        0 < (p.2.orbit_radius : ℝ) ^ 3 / ((G : ℝ) * (M_SUN : ℝ)) ∧
        0 < (G : ℝ) * (M_SUN : ℝ) / (p.2.orbit_radius : ℝ) ∧
        (p.2.expected_period_days : ℝ) ≠ 0 ∧ (p.2.orbital_velocity : ℝ) ≠ 0) := by
  constructor <;>
  · simp only [PLANETS, List.Forall, mercury, venus, earth, mars, jupiter, saturn,
      uranus, neptune]
    norm_num [G, M_SUN]

/-- C10: the two formulas are mutually consistent: for `0 < a < b`, velocity
times period-in-seconds is the orbit circumference `2πa`, the period is
strictly increasing in the radius, and the velocity strictly decreasing. -/
theorem c10_velocity_times_period_is_circumference (a b : ℝ) (ha : 0 < a) (hab : a < b) :
    calculate_orbital_velocity a * (calculate_orbital_period a * 86400) = 2 * Real.pi * a ∧
      calculate_orbital_period a < calculate_orbital_period b ∧
      calculate_orbital_velocity b < calculate_orbital_velocity a := by
  have hb : 0 < b := ha.trans hab
  have hGM : (0 : ℝ) < (G : ℝ) * (M_SUN : ℝ) := by norm_num [G, M_SUN]
  refine ⟨?_, ?_, ?_⟩
  · have hsqrt : Real.sqrt ((G : ℝ) * (M_SUN : ℝ) / a) *
        Real.sqrt (a ^ 3 / ((G : ℝ) * (M_SUN : ℝ))) = a := by
      rw [← Real.sqrt_mul (by positivity)]
      rw [show (G : ℝ) * (M_SUN : ℝ) / a * (a ^ 3 / ((G : ℝ) * (M_SUN : ℝ))) = a ^ 2 from by
        field_simp
        ring]
      exact Real.sqrt_sq ha.le
    have h1 : calculate_orbital_velocity a * (calculate_orbital_period a * 86400)
        = (Real.sqrt ((G : ℝ) * (M_SUN : ℝ) / a) *
            Real.sqrt (a ^ 3 / ((G : ℝ) * (M_SUN : ℝ)))) * (2 * Real.pi) := by
      rw [calculate_orbital_velocity, calculate_orbital_period, circular_velocity_g,
        kepler_period_g]
      ring
    rw [h1, hsqrt]
    ring
  · rw [calculate_orbital_period, calculate_orbital_period, kepler_period_g, kepler_period_g]
    have hKa : a ^ 3 / ((G : ℝ) * (M_SUN : ℝ)) < b ^ 3 / ((G : ℝ) * (M_SUN : ℝ)) := by
      gcongr
    have hs : Real.sqrt (a ^ 3 / ((G : ℝ) * (M_SUN : ℝ)))
        < Real.sqrt (b ^ 3 / ((G : ℝ) * (M_SUN : ℝ))) :=
      Real.sqrt_lt_sqrt (by positivity) hKa
    rw [div_lt_div_iff₀ (by norm_num) (by norm_num)]
    nlinarith [mul_pos Real.pi_pos (sub_pos.mpr hs)]
  · rw [calculate_orbital_velocity, calculate_orbital_velocity, circular_velocity_g,
      circular_velocity_g]
    have hKv : (G : ℝ) * (M_SUN : ℝ) / b < (G : ℝ) * (M_SUN : ℝ) / a :=
      div_lt_div_of_pos_left hGM ha hab
    exact Real.sqrt_lt_sqrt (by positivity) hKv

/-- C1 (amended): for every body of the hardcoded table both the calculated
orbital period and the calculated velocity are within 2% of the table's
reference values, and for Earth (radius 149597870700 m) the calculated period
is approximately 365.21 days (within 0.01 of it). -/
theorem c1_all_planets_within_two_percent :
    (PLANETS.Forall fun p => period_error p.2 < 2 ∧ velocity_error p.2 < 2) ∧
      |calculate_orbital_period (149597870700 : ℝ) - 365.21| < 0.01 := by
  constructor
  · simp only [PLANETS, List.Forall]
    refine ⟨⟨?_, ?_⟩, ⟨?_, ?_⟩, ⟨?_, ?_⟩, ⟨?_, ?_⟩, ⟨?_, ?_⟩, ⟨?_, ?_⟩, ⟨?_, ?_⟩, ?_, ?_⟩
    · exact period_error_lt_two mercury 1209509 1209510 (by norm_num) (by norm_num)
        (by norm_num [G, M_SUN, mercury]) (by norm_num [G, M_SUN, mercury])
        (by norm_num [mercury]) (by norm_num [mercury]) (by norm_num [mercury])
    · exact velocity_error_lt_two mercury 47878 47879 (by norm_num) (by norm_num)
        (by norm_num [G, M_SUN, mercury]) (by norm_num [G, M_SUN, mercury])
        (by norm_num [mercury]) (by norm_num [mercury]) (by norm_num [mercury])
    · exact period_error_lt_two venus 3089431 3089432 (by norm_num) (by norm_num)
        (by norm_num [G, M_SUN, venus]) (by norm_num [G, M_SUN, venus])
        (by norm_num [venus]) (by norm_num [venus]) (by norm_num [venus])
    · exact velocity_error_lt_two venus 35025 35026 (by norm_num) (by norm_num)
        (by norm_num [G, M_SUN, venus]) (by norm_num [G, M_SUN, venus])
        (by norm_num [venus]) (by norm_num [venus]) (by norm_num [venus])
    · exact period_error_lt_two earth 5022010 5022011 (by norm_num) (by norm_num)
        (by norm_num [G, M_SUN, earth]) (by norm_num [G, M_SUN, earth])
        (by norm_num [earth]) (by norm_num [earth]) (by norm_num [earth])
    · exact velocity_error_lt_two earth 29788 29789 (by norm_num) (by norm_num)
        (by norm_num [G, M_SUN, earth]) (by norm_num [G, M_SUN, earth])
        (by norm_num [earth]) (by norm_num [earth]) (by norm_num [earth])
    · exact period_error_lt_two mars 9445349 9445350 (by norm_num) (by norm_num)
        (by norm_num [G, M_SUN, mars]) (by norm_num [G, M_SUN, mars])
        (by norm_num [mars]) (by norm_num [mars]) (by norm_num [mars])
    · exact velocity_error_lt_two mars 24132 24133 (by norm_num) (by norm_num)
        (by norm_num [G, M_SUN, mars]) (by norm_num [G, M_SUN, mars])
        (by norm_num [mars]) (by norm_num [mars]) (by norm_num [mars])
    · exact period_error_lt_two jupiter 59626045 59626046 (by norm_num) (by norm_num)
        (by norm_num [G, M_SUN, jupiter]) (by norm_num [G, M_SUN, jupiter])
        (by norm_num [jupiter]) (by norm_num [jupiter]) (by norm_num [jupiter])
    · exact velocity_error_lt_two jupiter 13057 13058 (by norm_num) (by norm_num)
        (by norm_num [G, M_SUN, jupiter]) (by norm_num [G, M_SUN, jupiter])
        (by norm_num [jupiter]) (by norm_num [jupiter]) (by norm_num [jupiter])
    · exact period_error_lt_two saturn 148970297 148970298 (by norm_num) (by norm_num)
        (by norm_num [G, M_SUN, saturn]) (by norm_num [G, M_SUN, saturn])
        (by norm_num [saturn]) (by norm_num [saturn]) (by norm_num [saturn])
    · exact velocity_error_lt_two saturn 9622 9623 (by norm_num) (by norm_num)
        (by norm_num [G, M_SUN, saturn]) (by norm_num [G, M_SUN, saturn])
        (by norm_num [saturn]) (by norm_num [saturn]) (by norm_num [saturn])
    · exact period_error_lt_two uranus 422542591 422542592 (by norm_num) (by norm_num)
        (by norm_num [G, M_SUN, uranus]) (by norm_num [G, M_SUN, uranus])
        (by norm_num [uranus]) (by norm_num [uranus]) (by norm_num [uranus])
    · exact velocity_error_lt_two uranus 6798 6799 (by norm_num) (by norm_num)
        (by norm_num [G, M_SUN, uranus]) (by norm_num [G, M_SUN, uranus])
        (by norm_num [uranus]) (by norm_num [uranus]) (by norm_num [uranus])
    · exact period_error_lt_two neptune 827166137 827166138 (by norm_num) (by norm_num)
        (by norm_num [G, M_SUN, neptune]) (by norm_num [G, M_SUN, neptune])
        (by norm_num [neptune]) (by norm_num [neptune]) (by norm_num [neptune])
    · exact velocity_error_lt_two neptune 5434 5435 (by norm_num) (by norm_num)
        (by norm_num [G, M_SUN, neptune]) (by norm_num [G, M_SUN, neptune])
        (by norm_num [neptune]) (by norm_num [neptune]) (by norm_num [neptune])
  · obtain ⟨hTl, hTu⟩ := period_bounds (G : ℝ) (M_SUN : ℝ) (149597870700 : ℝ)
      5022010 5022011 (by norm_num) (by norm_num)
      (by norm_num [G, M_SUN]) (by norm_num [G, M_SUN])
    rw [calculate_orbital_period, abs_lt]
    constructor <;> linarith

/-- C1 counterexample: the period the code computes for Earth lies strictly
below 365.211 days, hence differs from the spec's quoted 365.26 by more than
0.04 — it is not 365.26 to the two decimals stated. -/
theorem c1_counterexample_earth_period_not_365_26 :
    calculate_orbital_period (149597870700 : ℝ) < 365.211 ∧
      0.04 < |calculate_orbital_period (149597870700 : ℝ) - 365.26| := by
  obtain ⟨hTl, hTu⟩ := period_bounds (G : ℝ) (M_SUN : ℝ) (149597870700 : ℝ)
    5022010 5022011 (by norm_num) (by norm_num)
    (by norm_num [G, M_SUN]) (by norm_num [G, M_SUN])
  rw [calculate_orbital_period]
  have hT : kepler_period_g (G : ℝ) (M_SUN : ℝ) (149597870700 : ℝ) < 365.211 := by linarith
  refine ⟨hT, ?_⟩
  rw [abs_of_neg (by linarith)]
  linarith

/-- Witness for C10 at the concrete inputs `a = 1`, `b = 2`. -/
theorem c10_witness :
    calculate_orbital_velocity 1 * (calculate_orbital_period 1 * 86400) = 2 * Real.pi * 1 ∧
      calculate_orbital_period 1 < calculate_orbital_period 2 ∧
      calculate_orbital_velocity 2 < calculate_orbital_velocity 1 :=
  c10_velocity_times_period_is_circumference 1 2 one_pos one_lt_two

end VerifyOrbits
